import Mathlib

/-!
Verification of the NYSArchivesParser pipeline.

Shallow embedding of the decode and aggregation scripts
(parse_raw_formatter.py, parse_decoded.py, build_histpun.py,
build_inst_county.py).  Pandas string cells are modelled as
`Option String` (a missing value, NaN, is `none`; reading a CSV turns an
empty cell into NaN).  Fallible Python calls such as `int(...)` are
modelled with `Option`, where `none` stands for a raised exception.
Python string primitives (slicing, `split`, `strip`, `lower`, `int`) are
modelled structurally over the character list of the string so that every
definition evaluates by kernel reduction.
-/

namespace NYSArchives

/-- Numeric value of a digit-character list; agrees with Python `int` on
nonempty all-digit strings, the only shape the sources apply `int` to after
their digit-stripping and length checks. -/
def natOfDigits (l : List Char) : Nat :=
  l.foldl (fun a c => 10 * a + (c.toNat - 48)) 0

/-- Python zero-padded decimal formatting of a nonnegative value: left-pad
the decimal representation with zeros to width `w`. -/
def padZeros (w : Nat) (n : Nat) : String :=
  let s := toString n
  String.mk (List.replicate (w - s.length) '0') ++ s

/-- Python width-4 zero-padded formatting over `Int` (for a negative value
the sign counts toward the width). -/
def intPad4 (n : Int) : String :=
  if 0 ≤ n then padZeros 4 n.toNat else "-" ++ padZeros 3 (-n).toNat

/-- Drop leading and trailing whitespace from a character list: the model of
Python `str.strip()` (with no argument) and of the whitespace tolerance of
Python `int`. -/
def listStrip (l : List Char) : List Char :=
  ((l.dropWhile Char.isWhitespace).reverse.dropWhile Char.isWhitespace).reverse

/-- Python `s.strip()`. -/
def pyStrip (s : String) : String :=
  String.mk (listStrip s.data)

/-- Python `s.lower()` (the labels involved are ASCII). -/
def pyLower (s : String) : String :=
  String.mk (s.data.map Char.toLower)

/-- The composition `s.strip().lower()` used on every emitted category. -/
def stripLower (s : String) : String :=
  pyLower (pyStrip s)

/-- Python slicing `s[:n]` / `s.str.slice(0, n)`. -/
def pyTake (s : String) (n : Nat) : String :=
  String.mk (s.data.take n)

/-- Python slicing `s[n:]`. -/
def pyDrop (s : String) (n : Nat) : String :=
  String.mk (s.data.drop n)

/-- Splitting a character list at every occurrence of `sep`; the result is
never empty, matching Python `str.split(sep)` which yields `[""]` on the
empty string. -/
def splitCharList (sep : Char) : List Char → List (List Char)
  | [] => [[]]
  | c :: t =>
    match splitCharList sep t with
    | h :: r => if c = sep then [] :: h :: r else (c :: h) :: r
    | [] => [[c]]

/-- Python `s.split(sep)` for a one-character separator, the only form the
sources use. -/
def pySplit (s : String) (sep : Char) : List String :=
  (splitCharList sep s.data).map String.mk

/-- Python `int(s)`: surrounding whitespace is ignored, then an optional
sign followed by digits; `none` models a raised `ValueError`. -/
def pyInt? (s : String) : Option Int :=
  let t := listStrip s.data
  let signCore : Bool × List Char :=
    match t with
    | '-' :: rest => (true, rest)
    | '+' :: rest => (false, rest)
    | l => (false, l)
  if signCore.2 = [] then none
  else if signCore.2.all Char.isDigit then
    some (if signCore.1 then -(natOfDigits signCore.2 : Int) else (natOfDigits signCore.2 : Int))
  else none

/-- Python `re.sub(r"\D", "", raw)` seen as a character list: keep only the
digit characters of the raw field. -/
def stripNonDigits (raw : String) : List Char :=
  raw.data.filter fun c => c.isDigit

/-- Day-level stub, year then month then day, each two-digit zero-padded
and dash-separated, built from the digit slices for month, day, year. -/
def dayStub (mm dd yy : List Char) : String :=
  padZeros 2 (natOfDigits yy) ++ "-" ++ padZeros 2 (natOfDigits mm) ++ "-"
    ++ padZeros 2 (natOfDigits dd)

/-- Month-level stub, year then month, two-digit zero-padded and
dash-separated. -/
def monthStub (mm yy : List Char) : String :=
  padZeros 2 (natOfDigits yy) ++ "-" ++ padZeros 2 (natOfDigits mm)

/-- Embeds `parse_iso_date` (identical in parse_decoded.py and
parse_raw_formatter.py): strip non-digits; for `MDDYY` a 5-digit result
splits as 1+2+2 and a 6-digit one as 2+2+2; for `MYY` a 3-digit result
splits as 1+2 and a 4-digit one as 2+2; every other digit count gives `""`.
The Lean input is always a string, so the `isinstance` guard is vacuous. -/
def parse_iso_date (raw : String) (fmt : String) : String :=
  let s := stripNonDigits raw
  if fmt = "MDDYY" then
    if s.length = 5 then dayStub (s.take 1) ((s.drop 1).take 2) ((s.drop 3).take 2)
    else if s.length = 6 then dayStub (s.take 2) ((s.drop 2).take 2) ((s.drop 4).take 2)
    else ""
  else if fmt = "MYY" then
    if s.length = 3 then monthStub (s.take 1) ((s.drop 1).take 2)
    else if s.length = 4 then monthStub (s.take 2) ((s.drop 2).take 2)
    else ""
  else ""

/-- Embeds `pivot_dob` from parse_decoded.py (parse_raw_formatter.py has
the same comparison logic, checking both guards up front).  A `yy-MM-DD`
stub is pivoted against the already resolved reception date `recv`:
`18yy` when the stub year exceeds the last two digits of the reception
year, else `19yy`.  `some ""` is the explicit failure value returned by
the source; `none` models an uncaught exception from tuple unpacking or
from `int`. -/
def pivot_dob (ysm recv : String) : Option String :=
  if ysm.length ≠ 8 then some ""
  else
    match pySplit ysm '-' with
    | [ys, ms, ds] =>
      match pyInt? ys with
      | none => none
      | some yy =>
        if recv = "" ∨ recv.length < 4 then some ""
        else
          match pyInt? (pyTake recv 4) with
          | none => none
          | some ry =>
            if ry % 100 < yy then some (intPad4 (1800 + yy) ++ "-" ++ ms ++ "-" ++ ds)
            else some (intPad4 (1900 + yy) ++ "-" ++ ms ++ "-" ++ ds)
    | _ => none

example : parse_iso_date "61252" "MDDYY" = "52-06-12" := by decide
example : parse_iso_date "121252" "MDDYY" = "52-12-12" := by decide
example : parse_iso_date "1252" "MYY" = "52-12" := by decide
example : parse_iso_date "125" "MYY" = "25-01" := by decide
example : parse_iso_date "12525" "MYY" = "" := by decide
example : pivot_dob "52-06-12" "1950-01-01" = some "1852-06-12" := by decide
example : pivot_dob "50-06-12" "1950-01-01" = some "1950-06-12" := by decide
example : pivot_dob "49-06-12" "1950-01-01" = some "1949-06-12" := by decide
example : pivot_dob "" "1950-01-01" = some "" := by decide
example : pyInt? " 52" = some 52 := by decide
example : pyInt? "-12" = some (-12) := by decide
example : pyInt? "9z" = none := by decide

/-- Embeds `clean_unknown` from parse_decoded.py: `Series.replace` turns the
literal values `"&"`, `"9"` and `""` into NaN and leaves everything else,
NaN included, unchanged. -/
def clean_unknown (v : Option String) : Option String :=
  match v with
  | none => none
  | some s => if s = "&" ∨ s = "9" ∨ s = "" then none else some s

/-- Embeds the decode pattern applied to every categorical column in
parse_decoded.py: `clean_unknown(col).map(mapping).fillna("Unknown")`.
`Series.map` with a dict sends NaN to NaN and a key absent from the dict to
NaN; `fillna` then replaces NaN by `"Unknown"`. -/
def decodeField (mapping : String → Option String) (v : Option String) : String :=
  match (clean_unknown v).bind mapping with
  | none => "Unknown"
  | some lbl => lbl

/-- The `court_map` dict of parse_decoded.py (step 5). -/
def court_map : List (String × String) :=
  [("0", "Transfer from Civil Institution"),
   ("1", "Special Sessions – New York City"),
   ("2", "County/Supreme Court – General Sessions"),
   ("5", "Preliminary Court"),
   ("8", "Children’s Court (Family Court after 9/62)"),
   ("9", "Court Not Stated")]

/-- The `mil_map` dict of parse_decoded.py (step 12). -/
def mil_map : List (String × String) :=
  [("0", "No military service"),
   ("1", "Military – honorable/general discharge"),
   ("2", "Military – discharged for mental disability"),
   ("3", "Military – discharged as undesirable (BCD/BCI)"),
   ("4", "Military – dishonorable discharge"),
   ("5", "Military – discharged as minor"),
   ("6", "Military – type not stated"),
   ("7", "Military – now in reserves"),
   ("8", "Military – active/AWOL"),
   ("9", "Military – not stated")]

/-- The `narc_map` dict of parse_decoded.py (step 15). -/
def narc_map : List (String × String) :=
  [("1", "Uses narcotics"),
   ("2", "Does not use narcotics"),
   ("4", "Denies, but suspected"),
   ("9", "Not stated whether uses")]

/-- The `mar_map` dict of parse_decoded.py (step 16). -/
def mar_map : List (String × String) :=
  [("0", "Single"),
   ("1", "Married"),
   ("2", "Divorced/Annulled"),
   ("3", "Widowed"),
   ("4", "Separated"),
   ("6", "Common-law"),
   ("9", "Not stated")]

/-- The `prev_map` dict of parse_decoded.py (step 17). -/
def prev_map : List (String × String) :=
  [("0", "No prior adult record"),
   ("1", "No prior adult conviction (dismissal)"),
   ("2", "No prior institutional commitment"),
   ("3", "Local jail/penitentiary only"),
   ("4", "State/Federal institution only"),
   ("5", "State/Federal + probation"),
   ("6", "Local + State/Federal, no probation"),
   ("7", "Local + State/Federal + probation"),
   ("8", "State/Federal + local + probation"),
   ("9", "Data not available")]

/-- The `nat_map` dict of parse_decoded.py (step 20). -/
def nat_map : List (String × String) :=
  [("1", "Alien"),
   ("5", "First papers only"),
   ("6", "Naturalized via military service"),
   ("7", "Naturalized (not via military)"),
   ("8", "Foreign-born U.S. citizen"),
   ("9", "Not stated"),
   ("-", "Not stated")]

/-- Lookup in a codebook dict; the keys of each dict above are distinct, so
association-list lookup coincides with Python `dict.get`. -/
def lookupMap (m : List (String × String)) : String → Option String :=
  fun s => m.lookup s

/-- Embeds `decode_crime_pair` from parse_decoded.py (step 3): a missing or
ampersand-bearing code or degree gives `"Unknown"`, a code absent from the
crime mapping gives `"Unknown"`, and otherwise the degree suffix comes from
the degree dict mapping 0 to 3rd, 1 to 2nd, and both 2 and 3 to 1st, with no suffix
for any other degree.  The crime mapping is external JSON, passed in as a
lookup function. -/
def decode_crime_pair (cm : String → Option String) (c d : String) : String :=
  if c = "" ∨ d = "" ∨ c.data.contains '&' ∨ d.data.contains '&' then "Unknown"
  else
    match cm c with
    | none => "Unknown"
    | some base =>
      match [("0", "3rd"), ("1", "2nd"), ("2", "1st"), ("3", "1st")].lookup d with
      | none => base
      | some deg => base ++ ", degree " ++ deg

/-- The CrimeDetails column step feeding `decode_crime_pair`:
`raw.str.slice(0, 2)` and `raw.str.slice(2, 3)` after `fillna("")`. -/
def crimeOf (cm : String → Option String) (v : Option String) : String :=
  let s := v.getD ""
  decode_crime_pair cm (pyTake s 2) (pyTake (pyDrop s 2) 1)

/-- Embeds `decode_sentence_years_months` from parse_decoded.py (step 28):
the `"&&&"` months sentinel is checked first, then the `"999"` years
sentinel, then the `"92"`/`"95"` transfer prefixes; afterwards the years
parse failing returns `""`, the letter months codes `T` and `E` mean 10 and
11, a failing months parse means 0, and the nonzero parts are joined with
`", "`, defaulting to `"0 months"`.  The `isinstance` guards are vacuous
for string inputs. -/
def decode_sentence_years_months (y m : String) : String :=
  if m = "&&&" then "Death/Indeterminate"
  else if y = "999" then "100+ years"
  else if y.data.take 2 = ['9', '2'] ∨ y.data.take 2 = ['9', '5'] then "Transfer/Indeterminate"
  else
    match pyInt? y with
    | none => ""
    | some yy =>
      let mm : Int := if m = "T" then 10 else if m = "E" then 11 else (pyInt? m).getD 0
      let parts : List String :=
        (if 0 < yy then [toString yy ++ " yr" ++ (if yy ≠ 1 then "s" else "")] else [])
          ++ (if 0 < mm then [toString mm ++ " mo" ++ (if mm ≠ 1 then "s" else "")] else [])
      match parts with
      | [] => "0 months"
      | p :: rest => rest.foldl (fun a q => a ++ ", " ++ q) p

example : decodeField (lookupMap mil_map) (some "1") = "Military – honorable/general discharge" := by decide
example : decodeField (lookupMap mil_map) (some "9") = "Unknown" := by decide
example : decodeField (lookupMap mil_map) none = "Unknown" := by decide
example : crimeOf (fun s => if s = "01" then some "Murder" else none) (some "0121") = "Murder, degree 1st" := by decide
example : crimeOf (fun s => if s = "01" then some "Murder" else none) (some "0181") = "Murder" := by decide
example : crimeOf (fun s => if s = "01" then some "Murder" else none) (some "0&11") = "Unknown" := by decide
example : decode_sentence_years_months "999" "&&&" = "Death/Indeterminate" := by decide
example : decode_sentence_years_months "999" "005" = "100+ years" := by decide
example : decode_sentence_years_months "925" "001" = "Transfer/Indeterminate" := by decide
example : decode_sentence_years_months "001" "006" = "1 yr, 6 mos" := by decide
example : decode_sentence_years_months "002" "T" = "2 yrs, 10 mos" := by decide
example : decode_sentence_years_months "000" "000" = "0 months" := by decide
example : decode_sentence_years_months "abc" "000" = "" := by decide

/-! ### Aggregator (build_histpun.py)

The decoded CSVs are concatenated and every record without a parseable
`DateReceived` is dropped; the rest are grouped by reception year and, per
year, counted along several breakdowns.  A record is modelled by the
columns the aggregation reads; a CSV cell is `Option String` as above.
The decoded files produced by parse_decoded.py always contain all of these
columns, so the per-column presence branches of the source are always
taken. -/

/-- A calendar date as produced by the datetime parse. -/
structure PDate where
  year : Nat
  month : Nat
  day : Nat
deriving DecidableEq, Repr

def isLeap (y : Nat) : Bool :=
  (y % 4 = 0 && y % 100 ≠ 0) || y % 400 = 0

def daysInMonth (y m : Nat) : Nat :=
  if m = 2 then (if isLeap y then 29 else 28)
  else if m = 4 ∨ m = 6 ∨ m = 9 ∨ m = 11 then 30
  else 31

/-- Modelled from `pandas.to_datetime(col, errors="coerce")` as the sources
apply it: the pipeline feeds it ISO `YYYY-MM-DD` strings (or empty cells),
and anything that is not a valid calendar date coerces to NaT, here
`none`. -/
def parseDate? (s : String) : Option PDate :=
  match pySplit s '-' with
  | [ys, ms, ds] =>
    if ys ≠ "" && ys.data.all Char.isDigit && ms ≠ "" && ms.data.all Char.isDigit
        && ds ≠ "" && ds.data.all Char.isDigit then
      let y := natOfDigits ys.data
      let m := natOfDigits ms.data
      let d := natOfDigits ds.data
      if 1 ≤ m && m ≤ 12 && 1 ≤ d && d ≤ daysInMonth y m then some ⟨y, m, d⟩
      else none
    else none
  | _ => none

def pdToDatetime (v : Option String) : Option PDate :=
  v.bind parseDate?

/-- Days contributed by the months strictly before month `m` of year `y`. -/
def daysBeforeMonth (y m : Nat) : Nat :=
  ((List.range (m - 1)).map fun i => daysInMonth y (i + 1)).sum

/-- Proleptic Gregorian day ordinal; only differences of this quantity are
used, modelling the `.dt.days` of a pandas timestamp difference. -/
def toDays (d : PDate) : Nat :=
  365 * (d.year - 1) + (d.year - 1) / 4 - (d.year - 1) / 100 + (d.year - 1) / 400
    + daysBeforeMonth d.year d.month + d.day

/-- One decoded record as read back by build_histpun.py, restricted to the
columns the aggregation uses. -/
structure DecRecord where
  DateReceived : Option String
  DateOfBirth : Option String
  RaceName : Option String
  SexName : Option String
  ReligionName : Option String
  Crime : Option String
  Institution : Option String
deriving DecidableEq, Repr

/-- `((DateReceived - DateOfBirth).dt.days // 365)`: floor division of the
day difference, NaN (`none`) when either date is missing. -/
def ageOf (r : DecRecord) : Option Int :=
  match pdToDatetime r.DateReceived, pdToDatetime r.DateOfBirth with
  | some recv, some dob => some (((toDays recv : Int) - (toDays dob : Int)).fdiv 365)
  | _, _ => none

/-- Embeds `classify_age` from build_histpun.py. -/
def classify_age (v : Option Int) : String :=
  match v with
  | none => ""
  | some a => if a < 18 then "juvenile" else "adult"

def ageCategory (r : DecRecord) : String :=
  classify_age (ageOf r)

/-- Embeds the CrimeCategory column:
`Crime.fillna("").split(",", 1)[0].strip().lower()`. -/
def crimeCategory (r : DecRecord) : String :=
  stripLower (String.mk ((r.Crime.getD "").data.takeWhile fun c => c ≠ ','))

/-- One output statistic row of histpun_output.csv. -/
structure StatRow where
  Country : String
  Year : Nat
  Statistic : String
  Value : Nat
  Source : String
  State : String
  Race : String
  Gender : String
  Age : String
  Crime : String
  Institution : String
  Complete : String
deriving DecidableEq, Repr

/-- Row template: every emitted row fixes Country, Statistic, State and the
per-year source key, the fixed text NYInmateRecords followed by the
four-digit year. -/
def mkRow (year value : Nat) (race gender age crime inst complete : String) : StatRow :=
  { Country := "United States", Year := year, Statistic := "prisoners",
    Value := value, Source := "NYInmateRecords" ++ toString year,
    State := "New York", Race := race, Gender := gender, Age := age,
    Crime := crime, Institution := inst, Complete := complete }

/-- The size of the group of key `a` in a key list: how many rows of the
frame carry that group key. -/
def countEq {α : Type} [DecidableEq α] (l : List α) (a : α) : Nat :=
  (l.filter fun x => x = a).length

/-- Block 7A: the unqualified total row for a year frame. -/
def totalRows (year : Nat) (d : List DecRecord) : List StatRow :=
  [mkRow year d.length "" "" "" "" "" ""]

/-- The (RaceName, SexName) key of each record that carries both values;
`groupby` drops a row whose key holds a NaN. -/
def rgPairs (d : List DecRecord) : List (String × String) :=
  d.filterMap fun r =>
    match r.RaceName, r.SexName with
    | some a, some b => some (a, b)
    | _, _ => none

/-- Block 7B: race × gender rows, emitted for every observed pair with no
further guard, `Complete = "race,gender"`. -/
def raceGenderRows (year : Nat) (d : List DecRecord) : List StatRow :=
  (rgPairs d).dedup.map fun p =>
    mkRow year (countEq (rgPairs d) p) (stripLower p.1) (stripLower p.2) "" "" "" "race,gender"

/-- Block 7C: race-only rows; the guard `if row["RaceName"]` skips an empty
group key, and the emitted value is stripped and lowercased. -/
def raceRows (year : Nat) (d : List DecRecord) : List StatRow :=
  ((d.filterMap (·.RaceName)).dedup.filter fun k => k ≠ "").map fun k =>
    mkRow year (countEq (d.filterMap (·.RaceName)) k) (stripLower k) "" "" "" "" "race"

/-- Block 7D: gender-only rows. -/
def genderRows (year : Nat) (d : List DecRecord) : List StatRow :=
  ((d.filterMap (·.SexName)).dedup.filter fun k => k ≠ "").map fun k =>
    mkRow year (countEq (d.filterMap (·.SexName)) k) "" (stripLower k) "" "" "" "gender"

/-- Block 7E: religion rows; the source writes no dimension column for the
religion value itself, every dimension field stays empty. -/
def religionRows (year : Nat) (d : List DecRecord) : List StatRow :=
  ((d.filterMap (·.ReligionName)).dedup.filter fun k => k ≠ "").map fun k =>
    mkRow year (countEq (d.filterMap (·.ReligionName)) k) "" "" "" "" "" "religion"

/-- The observed AgeCategory values of a year frame (a computed column, so
an empty value is a real group key rather than NaN). -/
def ageKeys (d : List DecRecord) : List String :=
  (d.map ageCategory).dedup

/-- Block 7F flag: `"age"` exactly when both `"juvenile"` and `"adult"`
occur among the observed categories of the year. -/
def ageCompleteFlag (d : List DecRecord) : String :=
  if "juvenile" ∈ ageKeys d ∧ "adult" ∈ ageKeys d then "age" else ""

/-- Block 7F: age-category rows; empty keys are skipped and every emitted
row carries the common observed-completeness flag. -/
def ageRows (year : Nat) (d : List DecRecord) : List StatRow :=
  ((ageKeys d).filter fun k => k ≠ "").map fun k =>
    mkRow year (countEq (d.map ageCategory) k) "" "" k "" "" (ageCompleteFlag d)

/-- Block 7G: crime-category rows, never flagged complete. -/
def crimeRows (year : Nat) (d : List DecRecord) : List StatRow :=
  ((d.map crimeCategory).dedup.filter fun k => k ≠ "").map fun k =>
    mkRow year (countEq (d.map crimeCategory) k) "" "" "" k "" ""

/-- Block 7H: institution rows, never flagged complete; the guard tests the
raw key, the emitted value is stripped and lowercased. -/
def instRows (year : Nat) (d : List DecRecord) : List StatRow :=
  ((d.filterMap (·.Institution)).dedup.filter fun k => k ≠ "").map fun k =>
    mkRow year (countEq (d.filterMap (·.Institution)) k) "" "" "" "" (stripLower k) ""

/-- All blocks of one year, in source order 7A–7H. -/
def histpunYearRows (year : Nat) (d : List DecRecord) : List StatRow :=
  totalRows year d ++ raceGenderRows year d ++ raceRows year d ++ genderRows year d
    ++ religionRows year d ++ ageRows year d ++ crimeRows year d ++ instRows year d

/-- The extraction year of a record, when its reception date resolves. -/
def recvYear (r : DecRecord) : Option Nat :=
  (pdToDatetime r.DateReceived).map (·.year)

/-- The `DateReceived.notna()` filter of build_histpun.py step 3. -/
def keptRecords (rs : List DecRecord) : List DecRecord :=
  rs.filter fun r => (pdToDatetime r.DateReceived).isSome

/-- The year frame `df_all[df_all["Year"] == year]` over the kept records. -/
def yearDf (rs : List DecRecord) (y : Nat) : List DecRecord :=
  (keptRecords rs).filter fun r => recvYear r = some y

/-- Ascending insertion of a year into a sorted list. -/
def insertSorted (x : Nat) : List Nat → List Nat
  | [] => [x]
  | y :: t => if x ≤ y then x :: y :: t else y :: insertSorted x t

/-- Python `sorted(...)` on the distinct years, as an insertion sort. -/
def sortNats (l : List Nat) : List Nat :=
  l.foldr insertSorted []

/-- The aggregation from the already filtered frame: the sorted distinct
years, each expanded into its blocks. -/
def histpunFromKept (kept : List DecRecord) : List StatRow :=
  (sortNats (kept.filterMap recvYear).dedup).flatMap fun y =>
    histpunYearRows y (kept.filter fun r => recvYear r = some y)

/-- Embeds steps 2–8 of build_histpun.py: the full histpun row list from
the concatenated decoded records. -/
def histpunRows (rs : List DecRecord) : List StatRow :=
  histpunFromKept (keptRecords rs)

/-- Does a present cell contain at least one non-whitespace character?  A
missing cell passes vacuously. -/
def optInk (v : Option String) : Bool :=
  match v with
  | none => true
  | some s => s.data.any fun c => !c.isWhitespace

/-! ### Helper lemmas -/

lemma countEq_cons {α : Type} [DecidableEq α] (a k : α) (t : List α) :
    countEq (a :: t) k = countEq t k + if k = a then 1 else 0 := by
  unfold countEq
  rw [List.filter_cons]
  by_cases h : a = k
  · rw [if_pos (by simp [h]), if_pos h.symm, List.length_cons]
  · rw [if_neg (by simp [h]), if_neg fun hh => h hh.symm]
    simp

lemma countEq_eq_zero_of_not_mem {α : Type} [DecidableEq α] {a : α} {t : List α}
    (h : a ∉ t) : countEq t a = 0 := by
  unfold countEq
  rw [List.length_eq_zero, List.filter_eq_nil_iff]
  intro x hx
  simp only [decide_eq_true_eq]
  intro hxa
  exact h (hxa ▸ hx)

lemma countEq_nodup {α : Type} [DecidableEq α] {m : List α} (hm : m.Nodup) (a : α) :
    countEq m a = if a ∈ m then 1 else 0 := by
  induction m with
  | nil => simp [countEq]
  | cons b t2 ih =>
    have hb : b ∉ t2 := (List.nodup_cons.mp hm).1
    rw [countEq_cons, ih (List.nodup_cons.mp hm).2]
    by_cases hab : a = b
    · subst hab
      rw [if_neg hb, if_pos rfl, if_pos (List.mem_cons_self a t2)]
    · rw [if_neg hab]
      by_cases hat : a ∈ t2
      · rw [if_pos hat, if_pos (List.mem_cons_of_mem b hat)]
      · rw [if_neg hat, if_neg (by simp [hab, hat])]

lemma sum_map_ite_count {α : Type} [DecidableEq α] (a : α) (m : List α) :
    ((m.map fun k => if k = a then 1 else 0).sum) = countEq m a := by
  induction m with
  | nil => simp [countEq]
  | cons b t ih =>
    rw [List.map_cons, List.sum_cons, ih, countEq_cons]
    by_cases h : b = a
    · subst h
      rw [if_pos rfl]
      omega
    · rw [if_neg h, if_neg fun hh => h hh.symm]
      omega

lemma sum_map_add_nat {α : Type} (l : List α) (f g : α → Nat) :
    ((l.map fun x => f x + g x).sum) = (l.map f).sum + (l.map g).sum := by
  induction l with
  | nil => simp
  | cons a t ih => simp [ih]; omega

/-- The group sizes of the distinct keys of a list add up to its length:
the heart of the groupby conservation argument. -/
lemma sum_dedup_count {α : Type} [DecidableEq α] (l : List α) :
    ((l.dedup.map fun k => countEq l k).sum) = l.length := by
  induction l with
  | nil => simp
  | cons a t ih =>
    have hsplit : (t.dedup.map fun k => countEq (a :: t) k)
        = t.dedup.map fun k => countEq t k + if k = a then 1 else 0 :=
      List.map_congr_left fun k _ => countEq_cons a k t
    have hded : ((t.dedup.map fun k => if k = a then 1 else 0).sum)
        = if a ∈ t then 1 else 0 := by
      rw [sum_map_ite_count, countEq_nodup (List.nodup_dedup t)]
      by_cases h : a ∈ t
      · rw [if_pos (List.mem_dedup.mpr h), if_pos h]
      · rw [if_neg (fun hh => h (List.mem_dedup.mp hh)), if_neg h]
    by_cases h : a ∈ t
    · rw [List.dedup_cons_of_mem h, hsplit, sum_map_add_nat, ih, hded, if_pos h,
        List.length_cons]
    · rw [List.dedup_cons_of_not_mem h, List.map_cons, List.sum_cons, hsplit,
        sum_map_add_nat, ih, hded, if_neg h, countEq_cons,
        countEq_eq_zero_of_not_mem h, List.length_cons, if_pos rfl]
      omega

/-- When every record of the frame carries both a race and a sex value, the
key extraction loses no record. -/
lemma rgPairs_length (d : List DecRecord)
    (h : ∀ r ∈ d, r.RaceName.isSome = true ∧ r.SexName.isSome = true) :
    (rgPairs d).length = d.length := by
  induction d with
  | nil => rfl
  | cons r t ih =>
    have hr := h r (List.mem_cons_self r t)
    obtain ⟨a, ha⟩ := Option.isSome_iff_exists.mp hr.1
    obtain ⟨b, hb⟩ := Option.isSome_iff_exists.mp hr.2
    have ht := ih fun x hx => h x (List.mem_cons_of_mem r hx)
    rw [rgPairs, List.filterMap_cons]
    simp only [ha, hb]
    rw [List.length_cons, List.length_cons, ← ht]
    rfl

lemma listStrip_ne_nil {l : List Char} (h : ∃ c ∈ l, ¬ c.isWhitespace = true) :
    listStrip l ≠ [] := by
  unfold listStrip
  intro hnil
  rw [List.reverse_eq_nil_iff, List.dropWhile_eq_nil_iff] at hnil
  have h2 : ∀ x ∈ l.dropWhile Char.isWhitespace, x.isWhitespace = true := by
    intro x hx
    exact hnil x (List.mem_reverse.mpr hx)
  have h3 : ∀ x ∈ l, x.isWhitespace = true := by
    intro x hx
    rw [← List.takeWhile_append_dropWhile Char.isWhitespace l, List.mem_append] at hx
    rcases hx with hx | hx
    · exact List.mem_takeWhile_imp hx
    · exact h2 x hx
  obtain ⟨c, hc, hcw⟩ := h
  exact hcw (h3 c hc)

/-- A category value with at least one non-whitespace character survives
the final `.strip().lower()` with a nonempty result. -/
lemma stripLower_ne_empty {s : String} (h : (s.data.any fun c => !c.isWhitespace) = true) :
    stripLower s ≠ "" := by
  have hex : ∃ c ∈ s.data, ¬ c.isWhitespace = true := by
    obtain ⟨c, hc, hcb⟩ := List.any_eq_true.mp h
    exact ⟨c, hc, by simpa using hcb⟩
  have hne := listStrip_ne_nil hex
  unfold stripLower pyLower pyStrip
  intro hq
  apply hne
  have hdata : (listStrip s.data).map Char.toLower = [] := congrArg String.data hq
  exact List.map_eq_nil_iff.mp hdata

lemma mem_ageKeys (d : List DecRecord) (s : String) :
    s ∈ ageKeys d ↔ ∃ r ∈ d, ageCategory r = s := by
  rw [ageKeys, List.mem_dedup, List.mem_map]

/-! ### Claims -/

/-- C2, corrected, counterexample: with years `"999"` and months `"&&&"`
the source answers `"Death/Indeterminate"`, not `"100+ years"` as the
claim demands for every months value, because the months sentinel check
comes first. -/
theorem claim_C2_counterexample :
    decode_sentence_years_months "999" "&&&" = "Death/Indeterminate"
      ∧ decode_sentence_years_months "999" "&&&" ≠ "100+ years" := by
  constructor
  · rfl
  · decide

/-- C2, amended: months `"&&&"` gives `"Death/Indeterminate"` regardless of
the years value, and years `"999"` gives `"100+ years"` for every months
value other than `"&&&"` (the months sentinel check precedes the years
sentinel check). -/
theorem claim_C2_amended (y m : String) (hm : m ≠ "&&&") :
    decode_sentence_years_months y "&&&" = "Death/Indeterminate"
      ∧ decode_sentence_years_months "999" m = "100+ years" := by
  constructor
  · rfl
  · unfold decode_sentence_years_months
    rw [if_neg hm, if_pos rfl]

/-- Witness for the amended C2 at a concrete months value. -/
theorem claim_C2_witness :
    decode_sentence_years_months "005" "&&&" = "Death/Indeterminate"
      ∧ decode_sentence_years_months "999" "004" = "100+ years" :=
  claim_C2_amended "005" "004" (by decide)

/-- C7, confirmed: a record whose reception date does not resolve is
filtered out before grouping and changes no output row of the
aggregation. -/
theorem claim_C7 (rs : List DecRecord) (r : DecRecord)
    (h : pdToDatetime r.DateReceived = none) :
    histpunRows (rs ++ [r]) = histpunRows rs := by
  unfold histpunRows
  congr 1
  unfold keptRecords
  rw [List.filter_append]
  simp [h]

/-- Witness for C7: appending a record with a malformed reception date to
a one-record frame leaves the output unchanged. -/
theorem claim_C7_witness :
    histpunRows
        [{ DateReceived := some "1952-06-12", DateOfBirth := some "1920-01-01",
           RaceName := some "White", SexName := some "Male",
           ReligionName := some "Catholic", Crime := some "Burglary, degree 1st",
           Institution := some "Sing Sing" },
         { DateReceived := some "6/12/52", DateOfBirth := none,
           RaceName := some "Black", SexName := some "Female",
           ReligionName := none, Crime := none, Institution := none }]
      = histpunRows
        [{ DateReceived := some "1952-06-12", DateOfBirth := some "1920-01-01",
           RaceName := some "White", SexName := some "Male",
           ReligionName := some "Catholic", Crime := some "Burglary, degree 1st",
           Institution := some "Sing Sing" }] :=
  claim_C7
    [{ DateReceived := some "1952-06-12", DateOfBirth := some "1920-01-01",
       RaceName := some "White", SexName := some "Male",
       ReligionName := some "Catholic", Crime := some "Burglary, degree 1st",
       Institution := some "Sing Sing" }]
    { DateReceived := some "6/12/52", DateOfBirth := none,
      RaceName := some "Black", SexName := some "Female",
      ReligionName := none, Crime := none, Institution := none }
    (by decide)

/-- Input refuting C1: the second record has a parseable reception date but
no RaceName cell, so it counts in the total and in no race × gender group. -/
def c1recs : List DecRecord :=
  [{ DateReceived := some "1952-06-12", DateOfBirth := some "1920-01-01",
     RaceName := some "White", SexName := some "Male",
     ReligionName := some "Catholic", Crime := some "Burglary, degree 1st",
     Institution := some "Sing Sing" },
   { DateReceived := some "1952-07-01", DateOfBirth := none,
     RaceName := none, SexName := some "Male",
     ReligionName := none, Crime := none, Institution := none }]

/-- C1, corrected, counterexample: for year 1952 of `c1recs` the race ×
gender breakdown is nonempty and sums to 1, while the unqualified total row
(all breakdown fields empty, Complete empty) has Value 2. -/
theorem claim_C1_counterexample :
    (((histpunRows c1recs).filter fun row =>
        decide (row.Year = 1952 ∧ row.Complete = "race,gender")).map StatRow.Value).sum = 1
  ∧ ((histpunRows c1recs).filter fun row =>
        decide (row.Year = 1952 ∧ row.Complete = "race,gender")) ≠ []
  ∧ ((histpunRows c1recs).filter fun row =>
        decide (row.Year = 1952 ∧ row.Race = "" ∧ row.Gender = "" ∧ row.Age = ""
          ∧ row.Crime = "" ∧ row.Institution = "" ∧ row.Complete = "")).map StatRow.Value
      = [2] := by decide

/-- C1, amended: within a year the race × gender Values always sum to the
number of records of that year that carry both a RaceName and a SexName
(groupby drops a record whose key holds a missing value); the sum equals
the unqualified total Value whenever every record of the year carries both
fields. -/
theorem claim_C1_amended (rs : List DecRecord) (y : Nat) :
    ((raceGenderRows y (yearDf rs y)).map StatRow.Value).sum = (rgPairs (yearDf rs y)).length
  ∧ ((∀ r ∈ yearDf rs y, r.RaceName.isSome = true ∧ r.SexName.isSome = true) →
      ((raceGenderRows y (yearDf rs y)).map StatRow.Value).sum
        = ((totalRows y (yearDf rs y)).map StatRow.Value).sum) := by
  have hmap : (raceGenderRows y (yearDf rs y)).map StatRow.Value
      = (rgPairs (yearDf rs y)).dedup.map fun p => countEq (rgPairs (yearDf rs y)) p := by
    rw [raceGenderRows, List.map_map]
    rfl
  constructor
  · rw [hmap, sum_dedup_count]
  · intro h
    rw [hmap, sum_dedup_count, rgPairs_length (yearDf rs y) h]
    simp [totalRows, mkRow]

/-- Records for the C1 witness: both carry RaceName and SexName. -/
def c1wrecs : List DecRecord :=
  [{ DateReceived := some "1952-06-12", DateOfBirth := some "1920-01-01",
     RaceName := some "White", SexName := some "Male",
     ReligionName := some "Catholic", Crime := some "Burglary, degree 1st",
     Institution := some "Sing Sing" },
   { DateReceived := some "1952-07-01", DateOfBirth := none,
     RaceName := some "Black", SexName := some "Female",
     ReligionName := none, Crime := none, Institution := none }]

/-- Witness for the amended C1 on a frame where every record carries both
breakdown fields. -/
theorem claim_C1_witness :
    ((raceGenderRows 1952 (yearDf c1wrecs 1952)).map StatRow.Value).sum
      = ((totalRows 1952 (yearDf c1wrecs 1952)).map StatRow.Value).sum :=
  (claim_C1_amended c1wrecs 1952).2 (by decide)

/-- C6, confirmed: an age-category row of a year carries Complete "age"
exactly when the year frame contains both an observed juvenile and an
observed adult record. -/
theorem claim_C6 (rs : List DecRecord) (y : Nat) (row : StatRow)
    (h : row ∈ ageRows y (yearDf rs y)) :
    (row.Complete = "age" ↔
      ((∃ r ∈ yearDf rs y, ageCategory r = "juvenile")
        ∧ (∃ r ∈ yearDf rs y, ageCategory r = "adult"))) := by
  obtain ⟨k, hk, hrow⟩ := List.mem_map.mp h
  have hc : row.Complete = ageCompleteFlag (yearDf rs y) := by
    rw [← hrow]
    rfl
  rw [hc, ← mem_ageKeys, ← mem_ageKeys]
  unfold ageCompleteFlag
  split_ifs with hj
  · exact iff_of_true rfl hj
  · exact iff_of_false (by decide) hj

/-- One adult-only record for the C6 witness. -/
def c6recs : List DecRecord :=
  [{ DateReceived := some "1952-06-12", DateOfBirth := some "1920-01-01",
     RaceName := some "White", SexName := some "Male",
     ReligionName := some "Catholic", Crime := some "Burglary, degree 1st",
     Institution := some "Sing Sing" }]

/-- Witness for C6: with only an adult observed, the emitted age row has an
empty Complete tag, and the iff instance witnesses that "age" would require
a juvenile as well. -/
theorem claim_C6_witness :
    ((mkRow 1952 1 "" "" "adult" "" "" "").Complete = "age" ↔
      ((∃ r ∈ yearDf c6recs 1952, ageCategory r = "juvenile")
        ∧ (∃ r ∈ yearDf c6recs 1952, ageCategory r = "adult"))) :=
  claim_C6 c6recs 1952 (mkRow 1952 1 "" "" "adult" "" "" "") (by decide)

/-- Input refuting C4: a whitespace-only RaceName survives the NaN and
truthiness guards but is emitted stripped, as the empty string. -/
def c4recs : List DecRecord :=
  [{ DateReceived := some "1952-06-12", DateOfBirth := none,
     RaceName := some " ", SexName := some "Male",
     ReligionName := none, Crime := none, Institution := none }]

/-- C4, corrected, counterexample: the race × gender breakdown of `c4recs`
emits a row whose Race dimension is the empty string. -/
theorem claim_C4_counterexample :
    ((histpunRows c4recs).filter fun row => decide (row.Complete = "race,gender")).map
        (fun row => (row.Race, row.Gender)) = [("", "male")] := by decide

/-- C4, amended: groups with a missing category value are dropped by the
groupby and empty-string group keys are skipped by the guards, so no
emitted row carries an empty grouped-dimension value provided every present
category value contains a non-whitespace character; a whitespace-only value
is the one exception the source lets through. -/
theorem claim_C4_amended (d : List DecRecord) (y : Nat)
    (h : ∀ r ∈ d, optInk r.RaceName = true ∧ optInk r.SexName = true
          ∧ optInk r.Institution = true) :
    (∀ row ∈ raceGenderRows y d, row.Race ≠ "" ∧ row.Gender ≠ "")
  ∧ (∀ row ∈ raceRows y d, row.Race ≠ "")
  ∧ (∀ row ∈ genderRows y d, row.Gender ≠ "")
  ∧ (∀ row ∈ ageRows y d, row.Age ≠ "")
  ∧ (∀ row ∈ crimeRows y d, row.Crime ≠ "")
  ∧ (∀ row ∈ instRows y d, row.Institution ≠ "") := by
  refine ⟨?_, ?_, ?_, ?_, ?_, ?_⟩
  · intro row hrow
    obtain ⟨p, hp, hrw⟩ := List.mem_map.mp hrow
    obtain ⟨r, hr, hfr⟩ := List.mem_filterMap.mp (List.mem_dedup.mp hp)
    cases hra : r.RaceName with
    | none => rw [hra] at hfr; cases hfr
    | some a =>
      cases hrs : r.SexName with
      | none => rw [hra, hrs] at hfr; cases hfr
      | some b =>
        rw [hra, hrs] at hfr
        injection hfr with hab
        subst hab
        have h1 := (h r hr).1
        rw [hra] at h1
        have h2 := (h r hr).2.1
        rw [hrs] at h2
        rw [← hrw]
        exact ⟨stripLower_ne_empty h1, stripLower_ne_empty h2⟩
  · intro row hrow
    obtain ⟨k, hk, hrw⟩ := List.mem_map.mp hrow
    obtain ⟨r, hr, hfr⟩ := List.mem_filterMap.mp (List.mem_dedup.mp (List.mem_filter.mp hk).1)
    have h1 := (h r hr).1
    rw [hfr] at h1
    rw [← hrw]
    exact stripLower_ne_empty h1
  · intro row hrow
    obtain ⟨k, hk, hrw⟩ := List.mem_map.mp hrow
    obtain ⟨r, hr, hfr⟩ := List.mem_filterMap.mp (List.mem_dedup.mp (List.mem_filter.mp hk).1)
    have h2 := (h r hr).2.1
    rw [hfr] at h2
    rw [← hrw]
    exact stripLower_ne_empty h2
  · intro row hrow
    obtain ⟨k, hk, hrw⟩ := List.mem_map.mp hrow
    rw [← hrw]
    exact of_decide_eq_true (List.mem_filter.mp hk).2
  · intro row hrow
    obtain ⟨k, hk, hrw⟩ := List.mem_map.mp hrow
    rw [← hrw]
    exact of_decide_eq_true (List.mem_filter.mp hk).2
  · intro row hrow
    obtain ⟨k, hk, hrw⟩ := List.mem_map.mp hrow
    obtain ⟨r, hr, hfr⟩ := List.mem_filterMap.mp (List.mem_dedup.mp (List.mem_filter.mp hk).1)
    have h3 := (h r hr).2.2
    rw [hfr] at h3
    rw [← hrw]
    exact stripLower_ne_empty h3

/-- A frame whose category values all contain visible characters, for the
C4 witness. -/
def c4wrecs : List DecRecord :=
  [{ DateReceived := some "1952-06-12", DateOfBirth := some "1920-01-01",
     RaceName := some "White", SexName := some "Male",
     ReligionName := some "Catholic", Crime := some "Burglary, degree 1st",
     Institution := some "Sing Sing" }]

/-- Witness for the amended C4. -/
theorem claim_C4_witness :
    (∀ row ∈ raceGenderRows 1952 c4wrecs, row.Race ≠ "" ∧ row.Gender ≠ "")
  ∧ (∀ row ∈ raceRows 1952 c4wrecs, row.Race ≠ "")
  ∧ (∀ row ∈ genderRows 1952 c4wrecs, row.Gender ≠ "")
  ∧ (∀ row ∈ ageRows 1952 c4wrecs, row.Age ≠ "")
  ∧ (∀ row ∈ crimeRows 1952 c4wrecs, row.Crime ≠ "")
  ∧ (∀ row ∈ instRows 1952 c4wrecs, row.Institution ≠ "") :=
  claim_C4_amended c4wrecs 1952 (by decide)

lemma dayStub_ne_empty (mm dd yy : List Char) : dayStub mm dd yy ≠ "" := by
  unfold dayStub
  intro h
  have hl := congrArg String.length h
  rw [String.length_append, String.length_append, String.length_append,
    String.length_append] at hl
  have h1 : ("-" : String).length = 1 := rfl
  have h0 : ("" : String).length = 0 := rfl
  omega

lemma monthStub_ne_empty (mm yy : List Char) : monthStub mm yy ≠ "" := by
  unfold monthStub
  intro h
  have hl := congrArg String.length h
  rw [String.length_append, String.length_append] at hl
  have h1 : ("-" : String).length = 1 := rfl
  have h0 : ("" : String).length = 0 := rfl
  omega

/-- C3, confirmed: for a well-formed day-level stub, splitting into year,
month, day parts, and a reference string whose first four characters carry
the year R, the pivot resolves to 1800 + yy exactly when yy exceeds
R mod 100, and to 1900 + yy otherwise; in particular equality of yy with
R mod 100 lands in the 1900s. -/
theorem claim_C3 (ysm recv : String) (ys ms ds : String) (yy R : Nat)
    (hlen : ysm.length = 8)
    (hsplit : pySplit ysm '-' = [ys, ms, ds])
    (hys : pyInt? ys = some (yy : Int))
    (hyy : yy < 100)
    (hrlen : 4 ≤ recv.length)
    (hR : pyInt? (pyTake recv 4) = some (R : Int)) :
    pivot_dob ysm recv
        = some (padZeros 4 (if R % 100 < yy then 1800 + yy else 1900 + yy)
            ++ "-" ++ ms ++ "-" ++ ds)
    ∧ (yy = R % 100 →
        pivot_dob ysm recv = some (padZeros 4 (1900 + yy) ++ "-" ++ ms ++ "-" ++ ds)) := by
  have hrne : ¬(recv = "" ∨ recv.length < 4) := by
    rintro (rfl | hlt)
    · exact absurd hrlen (by decide)
    · omega
  have hcast : ((R : Int) % 100 < (yy : Int)) ↔ R % 100 < yy := by omega
  have h18 : intPad4 (1800 + (yy : Int)) = padZeros 4 (1800 + yy) := by
    unfold intPad4
    rw [if_pos (by omega)]
    congr 1
  have h19 : intPad4 (1900 + (yy : Int)) = padZeros 4 (1900 + yy) := by
    unfold intPad4
    rw [if_pos (by omega)]
    congr 1
  have hmain : pivot_dob ysm recv
      = some (padZeros 4 (if R % 100 < yy then 1800 + yy else 1900 + yy)
          ++ "-" ++ ms ++ "-" ++ ds) := by
    unfold pivot_dob
    rw [if_neg (not_ne_iff.mpr hlen)]
    simp only [hsplit, hys]
    rw [if_neg hrne]
    simp only [hR]
    by_cases hcmp : R % 100 < yy
    · rw [if_pos (hcast.mpr hcmp), if_pos hcmp, h18]
    · rw [if_neg fun hh => hcmp (hcast.mp hh), if_neg hcmp, h19]
  refine ⟨hmain, fun hyyR => ?_⟩
  rw [hmain, if_neg (by omega)]

/-- Witness for C3 at a concrete stub and reference: 52 exceeds 1950 mod
100, so the date pivots into the previous century. -/
theorem claim_C3_witness :
    pivot_dob "52-06-12" "1950-01-01" = some "1852-06-12" := by
  have h := (claim_C3 "52-06-12" "1950-01-01" "52" "06" "12" 52 1950 (by decide)
    (by decide) (by decide) (by decide) (by decide) (by decide)).1
  exact h.trans (by decide)

/-- C8, confirmed: after stripping non-digits, the day-level parse yields a
nonempty zero-padded stub exactly for 5 or 6 digits, consuming 1 or 2 month
digits from the front, then two day digits, then two year digits; the
month-level parse does the same for 3 or 4 digits; every other digit count
yields the empty string. -/
theorem claim_C8 (raw : String) :
    (parse_iso_date raw "MDDYY" ≠ "" ↔
      ((stripNonDigits raw).length = 5 ∨ (stripNonDigits raw).length = 6))
  ∧ (parse_iso_date raw "MYY" ≠ "" ↔
      ((stripNonDigits raw).length = 3 ∨ (stripNonDigits raw).length = 4))
  ∧ (∀ a b c d e, stripNonDigits raw = [a, b, c, d, e] →
      parse_iso_date raw "MDDYY" = dayStub [a] [b, c] [d, e])
  ∧ (∀ a b c d e f, stripNonDigits raw = [a, b, c, d, e, f] →
      parse_iso_date raw "MDDYY" = dayStub [a, b] [c, d] [e, f])
  ∧ (∀ a b c, stripNonDigits raw = [a, b, c] →
      parse_iso_date raw "MYY" = monthStub [a] [b, c])
  ∧ (∀ a b c d, stripNonDigits raw = [a, b, c, d] →
      parse_iso_date raw "MYY" = monthStub [a, b] [c, d]) := by
  have hM : parse_iso_date raw "MDDYY"
      = (if (stripNonDigits raw).length = 5 then
          dayStub ((stripNonDigits raw).take 1) (((stripNonDigits raw).drop 1).take 2)
            (((stripNonDigits raw).drop 3).take 2)
        else if (stripNonDigits raw).length = 6 then
          dayStub ((stripNonDigits raw).take 2) (((stripNonDigits raw).drop 2).take 2)
            (((stripNonDigits raw).drop 4).take 2)
        else "") := rfl
  have hY : parse_iso_date raw "MYY"
      = (if (stripNonDigits raw).length = 3 then
          monthStub ((stripNonDigits raw).take 1) (((stripNonDigits raw).drop 1).take 2)
        else if (stripNonDigits raw).length = 4 then
          monthStub ((stripNonDigits raw).take 2) (((stripNonDigits raw).drop 2).take 2)
        else "") := rfl
  refine ⟨?_, ?_, ?_, ?_, ?_, ?_⟩
  · by_cases h5 : (stripNonDigits raw).length = 5
    · rw [hM, if_pos h5]
      exact iff_of_true (dayStub_ne_empty _ _ _) (Or.inl h5)
    · by_cases h6 : (stripNonDigits raw).length = 6
      · rw [hM, if_neg h5, if_pos h6]
        exact iff_of_true (dayStub_ne_empty _ _ _) (Or.inr h6)
      · rw [hM, if_neg h5, if_neg h6]
        exact iff_of_false (by simp) (by simp [h5, h6])
  · by_cases h3 : (stripNonDigits raw).length = 3
    · rw [hY, if_pos h3]
      exact iff_of_true (monthStub_ne_empty _ _) (Or.inl h3)
    · by_cases h4 : (stripNonDigits raw).length = 4
      · rw [hY, if_neg h3, if_pos h4]
        exact iff_of_true (monthStub_ne_empty _ _) (Or.inr h4)
      · rw [hY, if_neg h3, if_neg h4]
        exact iff_of_false (by simp) (by simp [h3, h4])
  · intro a b c d e hs
    rw [hM, hs]
    simp
  · intro a b c d e f hs
    rw [hM, hs]
    simp
  · intro a b c hs
    rw [hY, hs]
    simp
  · intro a b c d hs
    rw [hY, hs]
    simp

/-- Witness for C8: a slash-separated raw date strips to five digits and
parses; four digits parse at month level; seven digits fail. -/
theorem claim_C8_witness :
    parse_iso_date "6/12/52" "MDDYY" = dayStub ['6'] ['1', '2'] ['5', '2']
  ∧ parse_iso_date "1252" "MYY" = monthStub ['1', '2'] ['5', '2']
  ∧ parse_iso_date "1234567" "MDDYY" = "" := by
  refine ⟨(claim_C8 "6/12/52").2.2.1 '6' '1' '2' '5' '2' (by decide), ?_, ?_⟩
  · exact (claim_C8 "1252").2.2.2.2.2 '1' '2' '5' '2' (by decide)
  · have h := (claim_C8 "1234567").1
    have h2 : ¬((stripNonDigits "1234567").length = 5
        ∨ (stripNonDigits "1234567").length = 6) := by decide
    exact not_ne_iff.mp fun hne => h2 (h.mp hne)

lemma clean_unknown_some (s : String) :
    clean_unknown (some s) = if s = "&" ∨ s = "9" ∨ s = "" then none else some s := rfl

/-- C5, corrected, counterexample: the composed decoder returns exactly the
label the mapping holds, so a mapping with an empty-string label yields an
empty output, refuting the unconditional never-empty part of the claim. -/
theorem claim_C5_counterexample :
    decodeField (fun s => if s = "X" then some "" else none) (some "X") = "" := by
  decide

/-- C5, amended: for any mapping and any cell the output is either the
label the mapping assigns to the cell value or exactly "Unknown", and the
function is total; the output is nonempty provided every label of the
mapping is nonempty; the sentinels ampersand, "9" and the empty string, and
a missing cell, always decode to "Unknown". -/
theorem claim_C5_amended (mapping : String → Option String) (v : Option String) :
    ((∃ s, v = some s ∧ mapping s = some (decodeField mapping v))
        ∨ decodeField mapping v = "Unknown")
  ∧ ((∀ s lbl, mapping s = some lbl → lbl ≠ "") → decodeField mapping v ≠ "")
  ∧ decodeField mapping (some "&") = "Unknown"
  ∧ decodeField mapping (some "9") = "Unknown"
  ∧ decodeField mapping (some "") = "Unknown"
  ∧ decodeField mapping none = "Unknown" := by
  have hcore : (∃ s, v = some s ∧ mapping s = some (decodeField mapping v))
      ∨ decodeField mapping v = "Unknown" := by
    cases v with
    | none => exact Or.inr rfl
    | some s =>
      by_cases hs : s = "&" ∨ s = "9" ∨ s = ""
      · right
        unfold decodeField
        rw [clean_unknown_some, if_pos hs]
        rfl
      · cases hm : mapping s with
        | none =>
          right
          unfold decodeField
          rw [clean_unknown_some, if_neg hs, Option.some_bind, hm]
        | some lbl =>
          left
          refine ⟨s, rfl, ?_⟩
          have hval : decodeField mapping (some s) = lbl := by
            unfold decodeField
            rw [clean_unknown_some, if_neg hs, Option.some_bind, hm]
          rw [hval, hm]
  refine ⟨hcore, ?_, rfl, rfl, rfl, rfl⟩
  intro hlab hemp
  rcases hcore with ⟨s, hv, hmap⟩ | hunk
  · exact hlab s _ hmap hemp
  · rw [hunk] at hemp
    exact absurd hemp (by decide)

/-- Witness for the amended C5: under a mapping whose labels are nonempty,
the decoded value is nonempty. -/
theorem claim_C5_witness :
    decodeField (fun s => if s = "1" then some "White" else none) (some "1") ≠ "" := by
  have h := (claim_C5_amended (fun s => if s = "1" then some "White" else none) (some "1")).2.1
  apply h
  intro s lbl hl
  by_cases hs : s = "1"
  · rw [if_pos hs] at hl
    injection hl with h2
    rw [← h2]
    decide
  · rw [if_neg hs] at hl
    cases hl

/-- C9, confirmed: each of the six inlined codebooks assigns a label to the
key "9", yet the sentinel normalization maps "9" to a missing value before
lookup, so the decode of a raw "9" is "Unknown" for every mapping and the
entries are unreachable. -/
theorem claim_C9 :
    (∀ mapping : String → Option String, decodeField mapping (some "9") = "Unknown")
  ∧ lookupMap mil_map "9" = some "Military – not stated"
  ∧ lookupMap narc_map "9" = some "Not stated whether uses"
  ∧ lookupMap mar_map "9" = some "Not stated"
  ∧ lookupMap prev_map "9" = some "Data not available"
  ∧ lookupMap nat_map "9" = some "Not stated"
  ∧ lookupMap court_map "9" = some "Court Not Stated"
  ∧ decodeField (lookupMap mil_map) (some "9") = "Unknown"
  ∧ decodeField (lookupMap narc_map) (some "9") = "Unknown"
  ∧ decodeField (lookupMap mar_map) (some "9") = "Unknown"
  ∧ decodeField (lookupMap prev_map) (some "9") = "Unknown"
  ∧ decodeField (lookupMap nat_map) (some "9") = "Unknown"
  ∧ decodeField (lookupMap court_map) (some "9") = "Unknown" :=
  ⟨fun _ => rfl, by decide, by decide, by decide, by decide, by decide, by decide,
    rfl, rfl, rfl, rfl, rfl, rfl⟩

/-- C10, confirmed: the crime cell splits into a two-character code and a
one-character degree; an empty or ampersand-bearing part or an unmapped
code yields "Unknown", degree 0 maps to 3rd, 1 to 2nd, 2 and 3 to 1st, and
any other degree leaves the base label bare. -/
theorem claim_C10 (cm : String → Option String) (v : Option String) (c d : String)
    (hc : c = pyTake (v.getD "") 2) (hd : d = pyTake (pyDrop (v.getD "") 2) 1) :
    crimeOf cm v = decode_crime_pair cm c d
  ∧ ((c = "" ∨ d = "" ∨ c.data.contains '&' = true ∨ d.data.contains '&' = true) →
      decode_crime_pair cm c d = "Unknown")
  ∧ (¬(c = "" ∨ d = "" ∨ c.data.contains '&' = true ∨ d.data.contains '&' = true) →
      ((cm c = none → decode_crime_pair cm c d = "Unknown")
        ∧ ∀ base, cm c = some base →
            decode_crime_pair cm c d =
              (if d = "0" then base ++ ", degree 3rd"
               else if d = "1" then base ++ ", degree 2nd"
               else if d = "2" ∨ d = "3" then base ++ ", degree 1st"
               else base))) := by
  constructor
  · rw [hc, hd]
    rfl
  constructor
  · intro hbad
    unfold decode_crime_pair
    rw [if_pos hbad]
  · intro hgood
    constructor
    · intro hcm
      unfold decode_crime_pair
      rw [if_neg hgood, hcm]
    · intro base hbase
      unfold decode_crime_pair
      rw [if_neg hgood, hbase]
      by_cases h0 : d = "0"
      · subst h0
        have hlit : (", degree " ++ "3rd" : String) = ", degree 3rd" := by decide
        simp [List.lookup, String.append_assoc, hlit]
      · rw [if_neg h0]
        by_cases h1 : d = "1"
        · subst h1
          have hlit : (", degree " ++ "2nd" : String) = ", degree 2nd" := by decide
          simp [List.lookup, String.append_assoc, hlit]
        · rw [if_neg h1]
          by_cases h2 : d = "2"
          · subst h2
            have hlit : (", degree " ++ "1st" : String) = ", degree 1st" := by decide
            simp [List.lookup, String.append_assoc, hlit]
          · by_cases h3 : d = "3"
            · subst h3
              have hlit : (", degree " ++ "1st" : String) = ", degree 1st" := by decide
              simp [List.lookup, String.append_assoc, hlit]
            · have e0 : (d == "0") = false := beq_eq_false_iff_ne.mpr h0
              have e1 : (d == "1") = false := beq_eq_false_iff_ne.mpr h1
              have e2 : (d == "2") = false := beq_eq_false_iff_ne.mpr h2
              have e3 : (d == "3") = false := beq_eq_false_iff_ne.mpr h3
              rw [if_neg (fun hh => hh.elim h2 h3)]
              simp [List.lookup, e0, e1, e2, e3]

/-- Witness for C10: code "01" with degree "2" under a one-entry mapping
decodes to the base label with a first-degree suffix. -/
theorem claim_C10_witness :
    decode_crime_pair (fun s => if s = "01" then some "Murder" else none) "01" "2"
      = "Murder, degree 1st" := by
  have h := ((claim_C10 (fun s => if s = "01" then some "Murder" else none)
      (some "0121") "01" "2" (by decide) (by decide)).2.2 (by decide)).2 "Murder" (by decide)
  exact h.trans (by decide)

end NYSArchives
